import Mathlib

/-!
Verification of `svelte-persisted-writable` (src/src/index.ts).

The repository exports one function, `storedWritable`, which wraps a svelte
`writable` store so that its value is loaded from, and persisted to,
`localStorage` under a fixed `key`, validated by a zod `schema`, with a
`storage`-event listener mirroring changes made by other tabs.

Shallow embedding choices:
* `localStorage` is an association list from keys to raw strings with
  `getItem` / `setItem` / `removeItem` matching the browser interface.
* The svelte writable is a current value together with the list of values
  synchronously delivered to subscribers (svelte's contract: `set` notifies,
  `update fn` is `set (fn value)`).
* `JSON.parse` and `schema.parse` are external library calls; they are
  modelled as abstract function parameters `jsonParse : String → Option J`
  and `schemaParse : J → Option T`, where `none` means the call throws
  (`SyntaxError` / `ZodError`).  The source wraps neither call in
  `try`/`catch`, so a `none` propagates out of the operation.
* `JSON.stringify` is an abstract `stringify : T → String`.
* JavaScript truthiness of `localStorage.getItem`'s result (`string | null`)
  is false exactly for `null` and for the empty string.
-/

namespace PersistedWritable

/-- The `localStorage` backend: an association list from keys to raw strings. -/
abbrev Backend := List (String × String)

/-- `localStorage.getItem(k)`: the raw string stored at `k`, or `none` when absent. -/
def getItem : Backend → String → Option String
  | [], _ => none
  | (k, v) :: rest, key => if k = key then some v else getItem rest key

/-- `localStorage.setItem(k, v)`: store `v` at `k`, overwriting any prior entry. -/
def setItem (b : Backend) (key v : String) : Backend :=
  (key, v) :: b.filter (fun p => p.1 ≠ key)

/-- `localStorage.removeItem(k)`: delete the entry at `k` if present. -/
def removeItem (b : Backend) (key : String) : Backend :=
  b.filter (fun p => p.1 ≠ key)

/-- Observable state of one `storedWritable` instance: the current value of the
underlying svelte writable `w`, the sequence of values synchronously delivered
to subscribers, the storage backend, and whether the cross-tab `storage`
listener was registered on `window`. -/
structure SWState (T : Type) where
  current : T
  emitted : List T
  backend : Backend
  listenerRegistered : Bool
deriving DecidableEq

/-- Svelte `w.set(v)`: replace the current value and synchronously notify
subscribers. -/
def wSet {T : Type} (v : T) (s : SWState T) : SWState T :=
  { s with current := v, emitted := s.emitted ++ [v] }

/-- Svelte `w.update(fn)`, defined in `svelte/store` as `set(fn(value))`. -/
def wUpdate {T : Type} (f : T → T) (s : SWState T) : SWState T :=
  wSet (f s.current) s

/-- Construction of the stored writable, index.ts lines 30–48:
`valueFromStorage = !disableLocalStorage ? localStorage.getItem(key) : null`;
`w = writable(valueFromStorage ? schema.parse(JSON.parse(valueFromStorage)) : initialValue)`;
then, if `!disableLocalStorage`, register the `storage` listener.
The truthiness test is false for `null` and for `""`.  `schema.parse` /
`JSON.parse` are not wrapped in `try`/`catch`, so a parse failure (`none`)
propagates: the whole construction returns `none` (throws) and no instance,
and in particular no listener registration, is produced. -/
def storedWritable {T J : Type} (key : String) (jsonParse : String → Option J)
    (schemaParse : J → Option T) (initialValue : T) (disableLocalStorage : Bool)
    (backend : Backend) : Option (SWState T) :=
  let valueFromStorage := if !disableLocalStorage then getItem backend key else none
  let initial : Option T :=
    match valueFromStorage with
    | none => some initialValue
    | some raw =>
        if raw = "" then some initialValue
        else (jsonParse raw).bind schemaParse
  initial.map (fun v =>
    { current := v
      emitted := []
      backend := backend
      listenerRegistered := !disableLocalStorage })

/-- `set` of the returned handle, index.ts lines 54–57: `w.set(v)`, then, unless
`disableLocalStorage`, `localStorage.setItem(key, JSON.stringify(get(w)))`. -/
def set {T : Type} (key : String) (stringify : T → String)
    (disableLocalStorage : Bool) (v : T) (s : SWState T) : SWState T :=
  let s1 := wSet v s
  if !disableLocalStorage then
    { s1 with backend := setItem s1.backend key (stringify s1.current) }
  else s1

/-- `update` of the returned handle, index.ts lines 63–66: `w.update(fn)`, then,
unless `disableLocalStorage`, `localStorage.setItem(key, JSON.stringify(get(w)))`. -/
def update {T : Type} (key : String) (stringify : T → String)
    (disableLocalStorage : Bool) (f : T → T) (s : SWState T) : SWState T :=
  let s1 := wUpdate f s
  if !disableLocalStorage then
    { s1 with backend := setItem s1.backend key (stringify s1.current) }
  else s1

/-- `clear` of the returned handle, index.ts lines 71–74: `w.set(initialValue)`
then `localStorage.removeItem(key)`.  Note the source calls `removeItem`
unconditionally — it does not test `disableLocalStorage` here. -/
def clear {T : Type} (key : String) (initialValue : T) (s : SWState T) : SWState T :=
  let s1 := wSet initialValue s
  { s1 with backend := removeItem s1.backend key }

/-- The `storage`-event listener, index.ts lines 38–47.  `eventKey` is
`StorageEvent.key` (`null` when the whole storage area was cleared) and
`newValue` is `StorageEvent.newValue` (`null` when the entry was removed).
Result: a flag saying whether the handler threw, and the resulting state.
`w.set(schema.parse(JSON.parse(event.newValue)))` has no `try`/`catch`, so on a
parse failure the exception escapes before `w.set` runs: the state is
unchanged and the flag is `true`. -/
def handleStorage {T J : Type} (key : String) (jsonParse : String → Option J)
    (schemaParse : J → Option T) (initialValue : T) (eventKey : Option String)
    (newValue : Option String) (s : SWState T) : Bool × SWState T :=
  if eventKey = some key then
    match newValue with
    | none => (false, wSet initialValue s)
    | some raw =>
        match (jsonParse raw).bind schemaParse with
        | some v => (false, wSet v s)
        | none => (true, s)
  else (false, s)

/-- Concrete stand-in for `JSON.stringify` on `Nat`, used only to instantiate
witnesses (the real serializer is a browser primitive, external to the repo). -/
def demoStringify (n : Nat) : String :=
  if n = 1 then "one" else if n = 2 then "two" else "other"

/-- Concrete stand-in for `JSON.parse`, used only to instantiate witnesses:
accepts exactly the strings `demoStringify` produces for 1 and 2. -/
def demoJsonParse (s : String) : Option Nat :=
  if s = "one" then some 1 else if s = "two" then some 2 else none

/-- Concrete stand-in for a zod `schema.parse` accepting numbers at most 2,
used only to instantiate witnesses. -/
def demoSchemaParse (n : Nat) : Option Nat :=
  if n ≤ 2 then some n else none

/-- Reading back the key just written returns the value just written. -/
theorem getItem_setItem_self (b : Backend) (key v : String) :
    getItem (setItem b key v) key = some v := by
  simp [getItem, setItem]

/-- Reading back the key just removed finds nothing. -/
theorem getItem_removeItem_self (b : Backend) (key : String) :
    getItem (removeItem b key) key = none := by
  induction b with
  | nil => rfl
  | cons p rest ih =>
      by_cases h : p.1 = key
      · simpa [removeItem, List.filter, h] using ih
      · simpa [removeItem, List.filter, h, getItem] using ih

/-- C1: the claim states that for every stored string failing JSON decode or
schema validation, construction with persistence enabled yields an instance
whose initial value equals the default, with no error surfaced.  Evaluating the
code at the failing input — `key = "k"`, backend holding the non-decodable
string `"oops"` at `"k"`, persistence enabled — shows the parse exception
propagates out of construction and no instance is produced at all. -/
theorem C1_construction_throws_on_malformed :
    storedWritable "k" demoJsonParse demoSchemaParse (0 : Nat) false
      [("k", "oops")] = none := by decide

/-- C2: the claim states that with `disableLocalStorage = true` no operation of
the instance reads or writes the storage backend.  Evaluating the code at the
failing input — a persistence-disabled instance (no listener registered) over a
backend holding an entry at `"k"`, then `clear()` — shows `clear` still deletes
the backend entry, because index.ts line 73 calls `localStorage.removeItem(key)`
without testing `disableLocalStorage`. -/
theorem C2_clear_touches_storage_when_disabled :
    getItem [("k", "two")] "k" = some "two" ∧
    getItem (clear "k" (0 : Nat)
      { current := 5, emitted := [], backend := [("k", "two")],
        listenerRegistered := false }).backend "k" = none := by decide

/-- C3: the claim states that a `storage` event for this key whose new raw
value fails decode or validation sets the in-memory value to the default and
notifies subscribers, never propagating an error.  Evaluating the handler at
the failing input — matching key, `newValue = "oops"` which fails decode —
shows it throws out of `schema.parse` and leaves the state (value and
notification log) completely unchanged. -/
theorem C3_handler_throws_on_malformed :
    handleStorage "k" demoJsonParse demoSchemaParse (0 : Nat) (some "k")
      (some "oops")
      { current := 5, emitted := [], backend := [], listenerRegistered := true }
    = (true,
      { current := 5, emitted := [], backend := [],
        listenerRegistered := true }) := by decide

/-- C4: for every value `v` accepted by the schema whose serialization
round-trips (`schema.parse(JSON.parse(JSON.stringify(v))) = v`) and is a
non-empty string, calling `set v` on a persistence-enabled instance and then
constructing a fresh instance over the resulting backend with the same key and
schema yields an initial value equal to `v`. -/
theorem C4_set_roundtrip {T J : Type} (key : String)
    (jsonParse : String → Option J) (schemaParse : J → Option T)
    (stringify : T → String) (initialValue v : T) (s : SWState T)
    (hrt : (jsonParse (stringify v)).bind schemaParse = some v)
    (hne : stringify v ≠ "") :
    Option.map SWState.current
      (storedWritable key jsonParse schemaParse initialValue false
        (set key stringify false v s).backend) = some v := by
  simp [set, wSet, storedWritable, getItem_setItem_self, hne, hrt]

/-- C4 witness: instantiating the round-trip at `v = 2` with the demo codec. -/
theorem C4_set_roundtrip_witness :
    Option.map SWState.current
      (storedWritable "k" demoJsonParse demoSchemaParse (0 : Nat) false
        (set "k" demoStringify false 2
          { current := 0, emitted := [], backend := [],
            listenerRegistered := true }).backend) = some 2 :=
  C4_set_roundtrip "k" demoJsonParse demoSchemaParse demoStringify 0 2
    { current := 0, emitted := [], backend := [], listenerRegistered := true }
    (by decide) (by decide)

/-- C5: `update fn` is observably equivalent to `set (fn currentValue)`: the
resulting states — in-memory value, subscriber notification sequence, and
persisted backend entry — are identical, for any function and any flag. -/
theorem C5_update_eq_set {T : Type} (key : String) (stringify : T → String)
    (disableLocalStorage : Bool) (f : T → T) (s : SWState T) :
    update key stringify disableLocalStorage f s
      = set key stringify disableLocalStorage (f s.current) s := rfl

/-- C6: `clear` resets the in-memory value to the original default without
consulting the backend, appends exactly one notification, and removes the
backend entry at the key (rather than writing the default into it); and a
second `clear` leaves the same value and the same absent backend entry as the
first. -/
theorem C6_clear_resets_and_idempotent {T : Type} (key : String)
    (initialValue : T) (s : SWState T) :
    (clear key initialValue s).current = initialValue ∧
    (clear key initialValue s).emitted = s.emitted ++ [initialValue] ∧
    getItem (clear key initialValue s).backend key = none ∧
    (clear key initialValue (clear key initialValue s)).current
      = (clear key initialValue s).current ∧
    getItem (clear key initialValue (clear key initialValue s)).backend key
      = getItem (clear key initialValue s).backend key := by
  refine ⟨rfl, rfl, ?_, rfl, ?_⟩ <;>
    simp [clear, wSet, getItem_removeItem_self]

/-- C7: on a persistence-enabled instance (`disableLocalStorage = false`),
after any `set` and after any `update` the backend entry at the key equals the
serialization of the instance's current in-memory value — write-through with no
buffering. -/
theorem C7_write_through {T : Type} (key : String) (stringify : T → String)
    (v : T) (f : T → T) (s : SWState T) :
    getItem (set key stringify false v s).backend key
        = some (stringify (set key stringify false v s).current) ∧
    getItem (update key stringify false f s).backend key
        = some (stringify (update key stringify false f s).current) := by
  constructor <;>
    simp [set, update, wSet, wUpdate, getItem_setItem_self]

/-- C8: a `storage` event whose key matches and whose new raw value is absent
resets the in-memory value to the default and notifies subscribers (no throw);
an event for any other key (including a null key) leaves the state entirely
unchanged. -/
theorem C8_handler_removal_and_other_key {T J : Type} (key : String)
    (jsonParse : String → Option J) (schemaParse : J → Option T)
    (initialValue : T) (eventKey newValue : Option String) (s : SWState T)
    (h : eventKey ≠ some key) :
    handleStorage key jsonParse schemaParse initialValue (some key) none s
      = (false, wSet initialValue s) ∧
    (wSet initialValue s).current = initialValue ∧
    (wSet initialValue s).emitted = s.emitted ++ [initialValue] ∧
    handleStorage key jsonParse schemaParse initialValue eventKey newValue s
      = (false, s) := by
  refine ⟨?_, rfl, rfl, ?_⟩
  · simp [handleStorage]
  · simp [handleStorage, h]

/-- C8 witness: instantiated at a removal event for `"k"` and an event for the
unrelated key `"j"`. -/
theorem C8_handler_removal_and_other_key_witness :
    handleStorage "k" demoJsonParse demoSchemaParse (0 : Nat) (some "k") none
      { current := 5, emitted := [], backend := [], listenerRegistered := true }
      = (false, wSet 0
        { current := 5, emitted := [], backend := [],
          listenerRegistered := true }) ∧
    (wSet 0
      { current := 5, emitted := [], backend := [],
        listenerRegistered := true }).current = 0 ∧
    (wSet (0 : Nat)
      { current := 5, emitted := [], backend := [],
        listenerRegistered := true }).emitted = [] ++ [0] ∧
    handleStorage "k" demoJsonParse demoSchemaParse (0 : Nat) (some "j")
      (some "two")
      { current := 5, emitted := [], backend := [], listenerRegistered := true }
      = (false,
        { current := 5, emitted := [], backend := [],
          listenerRegistered := true }) :=
  C8_handler_removal_and_other_key "k" demoJsonParse demoSchemaParse 0
    (some "j") (some "two")
    { current := 5, emitted := [], backend := [], listenerRegistered := true }
    (by decide)

/-- C9: handling a `storage` event never writes to the storage backend: for
every event (matching key or not; absent, valid, or malformed payload; thrown
or not) the backend after the handler runs is exactly the backend before. -/
theorem C9_handler_never_writes {T J : Type} (key : String)
    (jsonParse : String → Option J) (schemaParse : J → Option T)
    (initialValue : T) (eventKey newValue : Option String) (s : SWState T) :
    (handleStorage key jsonParse schemaParse initialValue eventKey newValue
      s).2.backend = s.backend := by
  unfold handleStorage
  by_cases h : eventKey = some key
  · cases newValue with
    | none => simp [h, wSet]
    | some raw =>
        cases hp : (jsonParse raw).bind schemaParse <;> simp [h, hp, wSet]
  · simp [h]

/-- C10: when the backend holds the empty string at the key, a
persistence-enabled construction treats it like an absent entry — the JS
truthiness test `valueFromStorage ?` is false for `""` — so no decode or
validation is attempted (the result holds for every `jsonParse` and
`schemaParse`) and the initial value is the default. -/
theorem C10_empty_string_treated_as_absent {T J : Type} (key : String)
    (jsonParse : String → Option J) (schemaParse : J → Option T)
    (initialValue : T) (backend : Backend)
    (h : getItem backend key = some "") :
    storedWritable key jsonParse schemaParse initialValue false backend
      = some { current := initialValue, emitted := [], backend := backend,
               listenerRegistered := true } := by
  simp [storedWritable, h]

/-- C10 witness: a backend holding the empty string at `"k"`. -/
theorem C10_empty_string_treated_as_absent_witness :
    storedWritable "k" demoJsonParse demoSchemaParse (7 : Nat) false
      [("k", "")]
      = some { current := 7, emitted := [], backend := [("k", "")],
               listenerRegistered := true } :=
  C10_empty_string_treated_as_absent "k" demoJsonParse demoSchemaParse 7
    [("k", "")] (by decide)

end PersistedWritable
